import Mathlib

/-!
Verification development for the forecasting core of `src/app.py`
(Ty-john/blood_bank): the function `run_simulation` (lines 159-238), the
monthly aggregation it performs on the donation history (lines 161-162),
the trend/volatility estimator (lines 165-183), and the derived metrics
`days_of_supply` (line 282), the per-blood-type `coverage` (line 737) and
`coverage_ratio` (line 821).

Modelling choices, each visible at the definition it concerns:

* Numbers.  Python floats are modelled by exact rationals `ℚ`; Python's
  `int(x)` truncation toward zero is `pyInt`.

* Timestamps.  The engine only ever uses month resolution
  (`resample('MS')`, `pd.DateOffset(months=m)`, `strftime("%b %Y")`), so a
  timestamp is abstracted to the integer index of the calendar month it
  denotes.  A raw (not yet parsed) CSV cell and a parsed `Timestamp` are
  distinct Python values, so the type `Ts` keeps the two apart;
  `to_datetime` maps one to the other.

* Randomness.  `np.random.seed(42)` followed by `np.random.normal(0, σ)`
  draws is modelled by explicit state passing: the global NumPy generator
  state is an `RngState`, a stream of standard-normal samples together
  with a position, `np.random.seed 42` resets the state to the fixed
  stream `g` produced by seed 42 (the stream itself is a parameter of the
  model, since the exact float values of the Mersenne-Twister draws are
  outside the scope of this embedding), and `np.random.normal(0, σ)`
  consumes one sample and scales it by `σ`.

* Square roots.  `residuals.std()` takes a float square root, which has no
  exact rational counterpart; the embedding threads an oracle
  `sqrtQ : ℚ → ℚ` for it.  Every theorem below holds for every `sqrtQ`
  (and every noise stream), so nothing depends on the oracle's values.

* The in-place column write `df['created_at'] = pd.to_datetime(...)` on
  line 161 mutates the caller's DataFrame; the model returns the mutated
  collection as the `df_out` field of the result.
-/

/-- Timestamp value of the `created_at` column, abstracted to the calendar
month it denotes.  `raw m` is an unparsed text cell denoting month `m`;
`dt m` is a parsed pandas `Timestamp` in month `m`. -/
inductive Ts where
  | raw (m : ℤ)
  | dt (m : ℤ)
deriving DecidableEq

/-- Model of `pd.to_datetime` on one cell: parses raw text, is the identity
on already-parsed timestamps. -/
def to_datetime : Ts → Ts
  | .raw m => .dt m
  | .dt m => .dt m

/-- Month index denoted by a timestamp. -/
def Ts.month : Ts → ℤ
  | .raw m => m
  | .dt m => m

/-- One row of the DataFrame handed to `run_simulation`: the columns the
engine reads (`created_at`, `pints_donated`). -/
structure DonationRecord where
  created_at : Ts
  pints_donated : ℚ
deriving DecidableEq

/-- Line 161, `df['created_at'] = pd.to_datetime(df['created_at'])`: the
collection with its timestamp column parsed in place. -/
def prepare (df : List DonationRecord) : List DonationRecord :=
  df.map fun r => { r with created_at := to_datetime r.created_at }

/-- Total volume donated in month `mo` (the per-month `sum()` of
`resample('MS')['pints_donated']`). -/
def monthSum (df : List DonationRecord) (mo : ℤ) : ℚ :=
  ((df.filter fun r => r.created_at.month = mo).map
    fun r => r.pints_donated).sum

/-- Consecutive months `lo, lo+1, ..., hi` (the index produced by
`resample('MS')`). -/
def monthRange (lo hi : ℤ) : List ℤ :=
  (List.range ((hi - lo).toNat + 1)).map fun (i : ℕ) => lo + (i : ℤ)

/-- Earliest month among the records (0 when there are none; unused then). -/
def aggLo (df : List DonationRecord) : ℤ :=
  match df.map fun r => r.created_at.month with
  | [] => 0
  | m :: ms => ms.foldl min m

/-- Latest month among the records (0 when there are none; unused then). -/
def aggHi (df : List DonationRecord) : ℤ :=
  match df.map fun r => r.created_at.month with
  | [] => 0
  | m :: ms => ms.foldl max m

/-- Line 162,
`history = df.set_index('created_at').resample('MS')['pints_donated'].sum().reset_index()`:
the monthly series, one `(month, total volume)` point per calendar month
from the earliest to the latest record, months with no records summing
to 0.  An empty frame resamples to an empty series. -/
def aggregate (df : List DonationRecord) : List (ℤ × ℚ) :=
  if df.isEmpty then []
  else (monthRange (aggLo df) (aggHi df)).map fun mo => (mo, monthSum df mo)

/-- Line 165: the fixed lookback window size. -/
def lookback : ℕ := 24

/-- Lines 166-169: `history.iloc[-lookback:]` when the series is longer than
the window, the whole series otherwise. -/
def recentOf (l : List ℚ) : List ℚ :=
  if l.length > lookback then l.drop (l.length - lookback) else l

/-- Line 175, `np.polyfit(recent['idx'], recent['pints_donated'], 1)`:
ordinary least-squares line of the values against their 0-based position,
as `(slope, intercept)`. -/
def polyfit1 (ys : List ℚ) : ℚ × ℚ :=
  let n : ℚ := ys.length
  let xs : List ℚ := (List.range ys.length).map fun (i : ℕ) => (i : ℚ)
  let sx := xs.sum
  let sy := ys.sum
  let sxx := (xs.map fun x => x * x).sum
  let sxy := ((xs.zip ys).map fun p => p.1 * p.2).sum
  let slope := (n * sxy - sx * sy) / (n * sxx - sx * sx)
  (slope, (sy - slope * sx) / n)

/-- Lines 178-179: residuals `actual - (slope*idx + intercept)` of the fit. -/
def residualsOf (ys : List ℚ) (slope intercept : ℚ) : List ℚ :=
  ((List.range ys.length).zip ys).map fun p => p.2 - (slope * p.1 + intercept)

/-- Line 180, `residuals.std()` before the square root: pandas' sample
variance about the mean, ddof = 1. -/
def sampleVar (rs : List ℚ) : ℚ :=
  let n : ℚ := rs.length
  let mu := rs.sum / n
  ((rs.map fun r => (r - mu) * (r - mu)).sum) / (n - 1)

/-- Lines 174-183: slope and volatility of the lookback window.  More than
one point: least-squares slope and the standard deviation (through the
`sqrtQ` oracle) of the fit residuals.  At most one point: the degenerate
fallback `slope = 0`, `volatility = 10`. -/
def estimator (sqrtQ : ℚ → ℚ) (ys : List ℚ) : ℚ × ℚ :=
  if ys.length > 1 then
    let p := polyfit1 ys
    (p.1, sqrtQ (sampleVar (residualsOf ys p.1 p.2)))
  else (0, 10)

/-- Global NumPy generator state: the stream of standard-normal samples it
will produce, and the position of the next draw. -/
structure RngState where
  stream : ℕ → ℚ
  pos : ℕ

/-- Line 195, `np.random.seed(42)`: discards the incoming generator state
and resets it to the fixed seed-42 stream `g`, positioned at its start. -/
def np_random_seed (g : ℕ → ℚ) (_s : RngState) : RngState :=
  ⟨g, 0⟩

/-- Model of `np.random.normal(0, σ)`: the next standard-normal sample of
the stream, scaled by `σ`, advancing the state by one draw. -/
def np_random_normal (σ : ℚ) (s : RngState) : ℚ × RngState :=
  (σ * s.stream s.pos, ⟨s.stream, s.pos + 1⟩)

/-- Python's `int(x)` on a float: truncation toward zero. -/
def pyInt (q : ℚ) : ℤ :=
  q.num.tdiv (q.den : ℤ)

/-- One row of `forecast_df` (lines 226-231).  `date` is the month index of
the period; `strftime("%b %Y")` is injective on it, so the index stands for
the label. -/
structure ForecastPoint where
  date : ℤ
  inventory : ℤ
  monthlySupply : ℤ
  monthlyDemand : ℤ
deriving DecidableEq

instance : Inhabited ForecastPoint := ⟨⟨0, 0, 0, 0⟩⟩

/-- Line 192: the fixed demand-to-supply ratio. -/
def demand_ratio : ℚ := 0.95

/-- Lines 198-231, one iteration of the forecast loop at step `m`: project
supply, apply the sliders, derive demand, update the running inventory, and
emit the integer-truncated `ForecastPoint`.  Returns the point, the updated
real-valued inventory, and the advanced generator state. -/
def projectStep (slope volatility shock_pct boost_pct waste_pct
    last_actual_supply : ℚ) (T0 : ℤ) (inv : ℚ) (s : RngState) (m : ℕ) :
    ForecastPoint × ℚ × RngState :=
  let trend_component := last_actual_supply + slope * (m : ℚ)
  let rb := np_random_normal (volatility * 0.3) s
  let base_supply0 := trend_component + rb.1
  let base_supply := max base_supply0 0
  let sim_supply := base_supply * (1 + boost_pct / 100) * (1 - waste_pct / 100)
  let base_demand := base_supply * demand_ratio
  let dn := np_random_normal (volatility * 0.15) rb.2
  let sim_demand := (base_demand + dn.1) * (1 + shock_pct / 100)
  let inv' := inv + (sim_supply - sim_demand)
  let next_date := T0 + (m : ℤ)
  (⟨next_date, pyInt inv', pyInt sim_supply, pyInt sim_demand⟩, inv', dn.2)

/-- Line 197, `for m in range(1, months_ahead + 1)`: runs `projectStep` over
the listed step numbers, accumulating the emitted rows, the running
inventory and the generator state. -/
def projectLoop (slope volatility shock_pct boost_pct waste_pct
    last_actual_supply : ℚ) (T0 : ℤ) :
    List ℕ → ℚ → RngState → List ForecastPoint × ℚ × RngState
  | [], inv, s => ([], inv, s)
  | m :: ms, inv, s =>
    let r1 := projectStep slope volatility shock_pct boost_pct waste_pct
      last_actual_supply T0 inv s m
    let r2 := projectLoop slope volatility shock_pct boost_pct waste_pct
      last_actual_supply T0 ms r1.2.1 r1.2.2
    (r1.1 :: r2.1, r2.2)

/-- Monthly history of the (prepared) input frame: line 162. -/
def histOf (df : List DonationRecord) : List (ℤ × ℚ) :=
  aggregate (prepare df)

/-- Slope fitted on the lookback window of the history (line 175 or the
line-182 fallback). -/
def slopeOf (sqrtQ : ℚ → ℚ) (df : List DonationRecord) : ℚ :=
  (estimator sqrtQ (recentOf ((histOf df).map Prod.snd))).1

/-- Volatility of the lookback window of the history (line 180 or the
line-183 fallback). -/
def volOf (sqrtQ : ℚ → ℚ) (df : List DonationRecord) : ℚ :=
  (estimator sqrtQ (recentOf ((histOf df).map Prod.snd))).2

/-- Line 188: `history['pints_donated'].iloc[-1] if not history.empty else
1000`. -/
def lastOf (df : List DonationRecord) : ℚ :=
  match (histOf df).getLast? with
  | some p => p.2
  | none => 1000

/-- Line 190: `history['created_at'].iloc[-1] if not history.empty else
datetime.now()`; the current date enters the model as the parameter
`now`. -/
def t0Of (now : ℤ) (df : List DonationRecord) : ℤ :=
  match (histOf df).getLast? with
  | some p => p.1
  | none => now

/-- Everything `run_simulation` leaves behind: the input collection after
the in-place `created_at` write of line 161, the returned
`(forecast_df, avg_sup, avg_dem)` triple of line 238, and the global
generator state after the draws. -/
structure SimResult where
  df_out : List DonationRecord
  forecast : List ForecastPoint
  avg_sup : ℚ
  avg_dem : ℚ
  rng : RngState

/-- Lines 159-238, `run_simulation(df, months_ahead, shock_pct, boost_pct,
waste_pct)`.  `g` is the seed-42 standard-normal stream, `sqrtQ` the square
root oracle, `now` the current date, `s0` the incoming global generator
state (discarded by the `np.random.seed(42)` of line 195).  A negative
`months_ahead` makes `range(1, months_ahead + 1)` empty, hence
`Int.toNat`. -/
def run_simulation (g : ℕ → ℚ) (sqrtQ : ℚ → ℚ) (now : ℤ)
    (df : List DonationRecord) (months_ahead : ℤ)
    (shock_pct boost_pct waste_pct : ℚ) (s0 : RngState) : SimResult :=
  let df1 := prepare df
  let slope := slopeOf sqrtQ df
  let volatility := volOf sqrtQ df
  let last_actual_supply := lastOf df
  let current_date := t0Of now df
  let s1 := np_random_seed g s0
  let steps := (List.range months_ahead.toNat).map fun i => i + 1
  let r := projectLoop slope volatility shock_pct boost_pct waste_pct
    last_actual_supply current_date steps last_actual_supply s1
  let forecast := r.1
  let avg_sup : ℚ :=
    if forecast.isEmpty then 0
    else ((forecast.map fun p => p.monthlySupply).sum : ℤ) / (forecast.length : ℚ)
  let avg_dem : ℚ :=
    if forecast.isEmpty then 0
    else ((forecast.map fun p => p.monthlyDemand).sum : ℤ) / (forecast.length : ℚ)
  ⟨df1, forecast, avg_sup, avg_dem, r.2.2⟩

/-- Value of `days_of_supply`: a finite float or `float('inf')`. -/
inductive ExtQ where
  | fin (q : ℚ)
  | inf
deriving DecidableEq

/-- Line 282: `(final_inventory / (monthly_dem/30)) if monthly_dem > 0 else
float('inf')`. -/
def days_of_supply (final_inventory monthly_dem : ℚ) : ExtQ :=
  if monthly_dem > 0 then .fin (final_inventory / (monthly_dem / 30)) else .inf

/-- Lines 734-737, the per-blood-type coverage of tab 2:
`t_sup = int(monthly_sup * ratio)`, `t_dem = int(monthly_dem * ratio)`,
`coverage = t_sup / t_dem if t_dem > 0 else 1.0`. -/
def coverage (monthly_sup monthly_dem ratio : ℚ) : ℚ :=
  let t_sup := pyInt (monthly_sup * ratio)
  let t_dem := pyInt (monthly_dem * ratio)
  if t_dem > 0 then (t_sup : ℚ) / (t_dem : ℚ) else 1

/-- Line 821: `(monthly_sup / monthly_dem * 100) if monthly_dem > 0 else
0`. -/
def coverage_ratio (monthly_sup monthly_dem : ℚ) : ℚ :=
  if monthly_dem > 0 then monthly_sup / monthly_dem * 100 else 0

/-- Closed form of the supply noise drawn at step `m` (1-based): the
`2*(m-1)`-th sample of the reseeded stream, scaled by `volatility * 0.3`
(line 203).  The supply draw of a step precedes its demand draw. -/
def supplyNoise (g : ℕ → ℚ) (volatility : ℚ) (m : ℕ) : ℚ :=
  (volatility * 0.3) * g (2 * (m - 1))

/-- Closed form of the demand noise drawn at step `m` (1-based): the
`2*(m-1)+1`-th sample of the reseeded stream, scaled by `volatility * 0.15`
(line 217). -/
def demandNoise (g : ℕ → ℚ) (volatility : ℚ) (m : ℕ) : ℚ :=
  (volatility * 0.15) * g (2 * (m - 1) + 1)

/-- Closed form of `base_supply` at step `m` (lines 199-208): trend plus
supply noise, clamped at zero. -/
def baseSupplyAt (g : ℕ → ℚ) (slope volatility last_actual_supply : ℚ)
    (m : ℕ) : ℚ :=
  max (last_actual_supply + slope * (m : ℚ) + supplyNoise g volatility m) 0

/-- Closed form of `sim_supply` at step `m` (line 211). -/
def simSupplyAt (g : ℕ → ℚ) (slope volatility last_actual_supply
    boost_pct waste_pct : ℚ) (m : ℕ) : ℚ :=
  baseSupplyAt g slope volatility last_actual_supply m *
    (1 + boost_pct / 100) * (1 - waste_pct / 100)

/-- Closed form of `sim_demand` at step `m` (lines 214-218). -/
def simDemandAt (g : ℕ → ℚ) (slope volatility last_actual_supply
    shock_pct : ℚ) (m : ℕ) : ℚ :=
  (baseSupplyAt g slope volatility last_actual_supply m * demand_ratio +
    demandNoise g volatility m) * (1 + shock_pct / 100)

/-- Closed form of the real-valued running inventory after `m` steps
(line 221); `realInvAt ... 0` is the seed `last_actual_supply` of
line 189. -/
def realInvAt (g : ℕ → ℚ) (slope volatility last_actual_supply
    shock_pct boost_pct waste_pct : ℚ) : ℕ → ℚ
  | 0 => last_actual_supply
  | m + 1 =>
    realInvAt g slope volatility last_actual_supply shock_pct boost_pct
      waste_pct m +
    (simSupplyAt g slope volatility last_actual_supply boost_pct waste_pct
        (m + 1) -
      simDemandAt g slope volatility last_actual_supply shock_pct (m + 1))

/-- Closed form of the `ForecastPoint` emitted at step `m` (1-based): each
field is the integer truncation of the corresponding real value. -/
def fpAt (g : ℕ → ℚ) (slope volatility shock_pct boost_pct waste_pct
    last_actual_supply : ℚ) (T0 : ℤ) (m : ℕ) : ForecastPoint :=
  ⟨T0 + (m : ℤ),
    pyInt (realInvAt g slope volatility last_actual_supply shock_pct
      boost_pct waste_pct m),
    pyInt (simSupplyAt g slope volatility last_actual_supply boost_pct
      waste_pct m),
    pyInt (simDemandAt g slope volatility last_actual_supply shock_pct m)⟩

/-! Helper lemmas about the embedding, shared by the claim theorems. -/

theorem pyInt_of_nonneg (q : ℚ) (h : 0 ≤ q) : pyInt q = ⌊q⌋ := by
  unfold pyInt
  rw [Int.tdiv_eq_ediv (Rat.num_nonneg.mpr h) (by positivity)]
  exact Rat.floor_def.symm

theorem pyInt_neg (q : ℚ) : pyInt (-q) = -pyInt q := by
  unfold pyInt
  rw [Rat.neg_num, Rat.neg_den, Int.neg_tdiv]

theorem pyInt_of_nonpos (q : ℚ) (h : q ≤ 0) : pyInt q = ⌈q⌉ := by
  have h1 : pyInt q = - pyInt (-q) := by rw [pyInt_neg, neg_neg]
  rw [h1, pyInt_of_nonneg (-q) (by linarith), Int.floor_neg, neg_neg]

theorem pyInt_nonneg (q : ℚ) (h : 0 ≤ q) : 0 ≤ pyInt q := by
  rw [pyInt_of_nonneg q h]
  exact Int.floor_nonneg.mpr h

theorem projectStep_eq (g : ℕ → ℚ)
    (slope volatility shock_pct boost_pct waste_pct last_actual_supply : ℚ)
    (T0 : ℤ) (k : ℕ) :
    projectStep slope volatility shock_pct boost_pct waste_pct
      last_actual_supply T0
      (realInvAt g slope volatility last_actual_supply shock_pct boost_pct
        waste_pct k)
      ⟨g, 2 * k⟩ (k + 1) =
    (fpAt g slope volatility shock_pct boost_pct waste_pct
        last_actual_supply T0 (k + 1),
      realInvAt g slope volatility last_actual_supply shock_pct boost_pct
        waste_pct (k + 1),
      ⟨g, 2 * (k + 1)⟩) := rfl

theorem projectLoop_go (g : ℕ → ℚ)
    (slope volatility shock_pct boost_pct waste_pct last_actual_supply : ℚ)
    (T0 : ℤ) (n k : ℕ) :
    projectLoop slope volatility shock_pct boost_pct waste_pct
      last_actual_supply T0
      ((List.range n).map fun i => i + (k + 1))
      (realInvAt g slope volatility last_actual_supply shock_pct boost_pct
        waste_pct k)
      ⟨g, 2 * k⟩ =
    ((List.range n).map fun i =>
        fpAt g slope volatility shock_pct boost_pct waste_pct
          last_actual_supply T0 (k + 1 + i),
      realInvAt g slope volatility last_actual_supply shock_pct boost_pct
        waste_pct (k + n),
      ⟨g, 2 * (k + n)⟩) := by
  induction n generalizing k with
  | zero => simp [projectLoop]
  | succ n ih =>
    rw [List.range_succ_eq_map]
    simp only [List.map_cons, List.map_map, Nat.zero_add, Nat.add_zero]
    have hsteps :
        (List.range n).map ((fun i => i + (k + 1)) ∘ Nat.succ) =
        (List.range n).map fun i => i + (k + 1 + 1) := by
      apply List.map_congr_left
      intro a _
      simp only [Function.comp]
      omega
    have ih1 := ih (k + 1)
    have h2 : k + 1 + n = k + (n + 1) := by omega
    rw [h2] at ih1
    rw [projectLoop, projectStep_eq, hsteps, ih1]
    simp only [Prod.mk.injEq, List.cons.injEq, and_true, true_and]
    apply List.map_congr_left
    intro a _
    simp only [Function.comp]
    congr 1
    omega

theorem run_simulation_df_out (g : ℕ → ℚ) (sqrtQ : ℚ → ℚ) (now : ℤ)
    (df : List DonationRecord) (months_ahead : ℤ)
    (shock_pct boost_pct waste_pct : ℚ) (s0 : RngState) :
    (run_simulation g sqrtQ now df months_ahead shock_pct boost_pct
      waste_pct s0).df_out = prepare df := rfl

theorem run_simulation_forecast (g : ℕ → ℚ) (sqrtQ : ℚ → ℚ) (now : ℤ)
    (df : List DonationRecord) (months_ahead : ℤ)
    (shock_pct boost_pct waste_pct : ℚ) (s0 : RngState) :
    (run_simulation g sqrtQ now df months_ahead shock_pct boost_pct
      waste_pct s0).forecast =
    (List.range months_ahead.toNat).map fun i =>
      fpAt g (slopeOf sqrtQ df) (volOf sqrtQ df) shock_pct boost_pct
        waste_pct (lastOf df) (t0Of now df) (i + 1) := by
  have h := projectLoop_go g (slopeOf sqrtQ df) (volOf sqrtQ df) shock_pct
    boost_pct waste_pct (lastOf df) (t0Of now df) months_ahead.toNat 0
  simp only [Nat.zero_add, Nat.mul_zero, realInvAt] at h
  simp only [run_simulation, np_random_seed]
  rw [h]
  apply List.map_congr_left
  intro a _
  congr 1
  omega

theorem getD_map_range {α : Type} (f : ℕ → α) (n i : ℕ) (d : α) :
    ((List.range n).map f).getD i d = if i < n then f i else d := by
  by_cases h : i < n
  · rw [if_pos h, List.getD_eq_getElem?_getD, List.getElem?_map,
      List.getElem?_range h]
    rfl
  · rw [if_neg h, List.getD_eq_getElem?_getD, List.getElem?_eq_none]
    · rfl
    · simp only [List.length_map, List.length_range]
      omega

theorem foldl_min_le_init (ms : List ℤ) (m : ℤ) : ms.foldl min m ≤ m := by
  induction ms generalizing m with
  | nil => exact le_refl m
  | cons a l ih => exact le_trans (ih (min m a)) (min_le_left m a)

theorem foldl_min_le_mem (ms : List ℤ) (m x : ℤ) (hx : x ∈ ms) :
    ms.foldl min m ≤ x := by
  induction ms generalizing m with
  | nil => cases hx
  | cons a l ih =>
    rcases List.mem_cons.mp hx with h | h
    · subst h
      exact le_trans (foldl_min_le_init l (min m x)) (min_le_right m x)
    · exact ih (min m a) h

theorem init_le_foldl_max (ms : List ℤ) (m : ℤ) : m ≤ ms.foldl max m := by
  induction ms generalizing m with
  | nil => exact le_refl m
  | cons a l ih => exact le_trans (le_max_left m a) (ih (max m a))

theorem mem_le_foldl_max (ms : List ℤ) (m x : ℤ) (hx : x ∈ ms) :
    x ≤ ms.foldl max m := by
  induction ms generalizing m with
  | nil => cases hx
  | cons a l ih =>
    rcases List.mem_cons.mp hx with h | h
    · subst h
      exact le_trans (le_max_right m x) (init_le_foldl_max l (max m x))
    · exact ih (max m a) h

theorem aggLo_le_month (r : DonationRecord) (df : List DonationRecord)
    (s : DonationRecord) (hs : s ∈ r :: df) :
    aggLo (r :: df) ≤ s.created_at.month := by
  have hagg : aggLo (r :: df) =
      (df.map fun x => x.created_at.month).foldl min r.created_at.month := rfl
  rw [hagg]
  rcases List.mem_cons.mp hs with h | h
  · subst h
    exact foldl_min_le_init _ _
  · exact foldl_min_le_mem _ _ _ (List.mem_map_of_mem _ h)

theorem month_le_aggHi (r : DonationRecord) (df : List DonationRecord)
    (s : DonationRecord) (hs : s ∈ r :: df) :
    s.created_at.month ≤ aggHi (r :: df) := by
  have hagg : aggHi (r :: df) =
      (df.map fun x => x.created_at.month).foldl max r.created_at.month := rfl
  rw [hagg]
  rcases List.mem_cons.mp hs with h | h
  · subst h
    exact init_le_foldl_max _ _
  · exact mem_le_foldl_max _ _ _ (List.mem_map_of_mem _ h)

theorem aggLo_le_aggHi (r : DonationRecord) (df : List DonationRecord) :
    aggLo (r :: df) ≤ aggHi (r :: df) :=
  le_trans (aggLo_le_month r df r (List.mem_cons_self r df))
    (month_le_aggHi r df r (List.mem_cons_self r df))

theorem mem_monthRange (lo hi mo : ℤ) (hle : lo ≤ hi) :
    mo ∈ monthRange lo hi ↔ lo ≤ mo ∧ mo ≤ hi := by
  simp only [monthRange, List.mem_map, List.mem_range]
  constructor
  · rintro ⟨i, hi1, rfl⟩
    omega
  · rintro ⟨h1, h2⟩
    exact ⟨(mo - lo).toNat, by omega, by omega⟩

/-! Concrete fixtures used by witnesses and counterexamples. -/

/-- History with one record: month 0, zero pints. -/
def oneZeroRecord : List DonationRecord := [⟨.dt 0, 0⟩]

/-- History with one record whose timestamp column is still raw text. -/
def rawRecord : List DonationRecord := [⟨.raw 5, 3⟩]

/-- Example history of testable property 5: two January records of 10 and 5
pints and one March record of 7 pints, with February empty (month 0 stands
for January, month 2 for March). -/
def exJanMar : List DonationRecord := [⟨.dt 0, 10⟩, ⟨.dt 0, 5⟩, ⟨.dt 2, 7⟩]

/-- Noise stream that always returns 0. -/
def zeroStream : ℕ → ℚ := fun _ => 0

/-- Noise stream whose first draw is 1/3 and all others are 0. -/
def gThird : ℕ → ℚ := fun n => if n = 0 then 1 / 3 else 0

/-- Noise stream whose second draw (the first demand draw) is -4. -/
def negStream : ℕ → ℚ := fun n => if n = 1 then -4 else 0

theorem histOf_oneZero : histOf oneZeroRecord = [(0, 0)] := by
  simp [histOf, prepare, oneZeroRecord, to_datetime, aggregate, aggLo, aggHi,
    monthRange, monthSum, Ts.month, List.filter, List.range_succ,
    List.range_zero]

theorem slopeOf_oneZero (sqrtQ : ℚ → ℚ) : slopeOf sqrtQ oneZeroRecord = 0 := by
  simp [slopeOf, histOf_oneZero, recentOf, estimator, lookback]

theorem volOf_oneZero (sqrtQ : ℚ → ℚ) : volOf sqrtQ oneZeroRecord = 10 := by
  simp [volOf, histOf_oneZero, recentOf, estimator, lookback]

theorem lastOf_oneZero : lastOf oneZeroRecord = 0 := by
  simp [lastOf, histOf_oneZero]

theorem t0Of_oneZero (now : ℤ) : t0Of now oneZeroRecord = 0 := by
  simp [t0Of, histOf_oneZero]

theorem pyInt_eval (q : ℚ) (n : ℤ) (h1 : (n : ℚ) ≤ q) (h2 : q < n + 1)
    (h3 : 0 ≤ n) : pyInt q = n := by
  rw [pyInt_of_nonneg q (le_trans (by exact_mod_cast h3) h1)]
  rw [Int.floor_eq_iff]
  exact ⟨h1, by exact_mod_cast h2⟩

theorem pyInt_eval_neg (q : ℚ) (n : ℤ) (h1 : q ≤ n) (h2 : (n : ℚ) - 1 < q)
    (h3 : n ≤ 0) : pyInt q = n := by
  rw [pyInt_of_nonpos q (le_trans h1 (by exact_mod_cast h3))]
  rw [Int.ceil_eq_iff]
  exact ⟨by exact_mod_cast h2, h1⟩

theorem realInvAt_one (g : ℕ → ℚ)
    (slope volatility last_actual_supply shock_pct boost_pct waste_pct : ℚ) :
    realInvAt g slope volatility last_actual_supply shock_pct boost_pct
      waste_pct 1 =
    last_actual_supply +
      (simSupplyAt g slope volatility last_actual_supply boost_pct waste_pct 1 -
        simDemandAt g slope volatility last_actual_supply shock_pct 1) := rfl

theorem supplyNoise_one (g : ℕ → ℚ) (volatility : ℚ) :
    supplyNoise g volatility 1 = volatility * 0.3 * g 0 := rfl

theorem demandNoise_one (g : ℕ → ℚ) (volatility : ℚ) :
    demandNoise g volatility 1 = volatility * 0.15 * g 1 := rfl

theorem forecast_oneZero (g : ℕ → ℚ) (sqrtQ : ℚ → ℚ) (now : ℤ)
    (shock_pct boost_pct waste_pct : ℚ) (s0 : RngState) :
    (run_simulation g sqrtQ now oneZeroRecord 1 shock_pct boost_pct
      waste_pct s0).forecast =
    [fpAt g 0 10 shock_pct boost_pct waste_pct 0 0 1] := by
  rw [run_simulation_forecast]
  norm_num [slopeOf_oneZero, volOf_oneZero, lastOf_oneZero, t0Of_oneZero,
    List.range_succ, List.range_zero]

/-! Claim theorems. -/

/-- C1: determinism of the projection engine.  For a fixed historical
collection and a fixed parameter tuple (and a fixed seed, i.e. a fixed
seed-42 sample stream `g`, which `np.random.seed(42)` restores on every
call), two invocations of `run_simulation` — whatever the incoming global
generator states `s1`, `s2` — produce identical `ForecastPoint`
sequences (same period label, inventory, monthly supply and monthly
demand at every index) and identical mean supply and mean demand. -/
theorem c1_determinism (g : ℕ → ℚ) (sqrtQ : ℚ → ℚ) (now : ℤ)
    (df : List DonationRecord) (months_ahead : ℤ)
    (shock_pct boost_pct waste_pct : ℚ) (s1 s2 : RngState) :
    (run_simulation g sqrtQ now df months_ahead shock_pct boost_pct
        waste_pct s1).forecast =
      (run_simulation g sqrtQ now df months_ahead shock_pct boost_pct
        waste_pct s2).forecast ∧
    (run_simulation g sqrtQ now df months_ahead shock_pct boost_pct
        waste_pct s1).avg_sup =
      (run_simulation g sqrtQ now df months_ahead shock_pct boost_pct
        waste_pct s2).avg_sup ∧
    (run_simulation g sqrtQ now df months_ahead shock_pct boost_pct
        waste_pct s1).avg_dem =
      (run_simulation g sqrtQ now df months_ahead shock_pct boost_pct
        waste_pct s2).avg_dem :=
  ⟨rfl, rfl, rfl⟩

/-- C2 (amended): the balance invariant holds for the real-valued running
quantities of the loop, not for the emitted integer-truncated fields.  For
every history, parameters and index `i` into the forecast: the emitted
`ForecastPoint` is the integer truncation, field by field, of the
real-valued running inventory, supply and demand (`fpAt`); the real-valued
inventory satisfies `inv(i+1) = inv(i) + simSupply(i+1) - simDemand(i+1)`;
and the recursion starts at `inv(0) = lastHistoricalTotal`.  The claim's
equation over the truncated integers themselves fails
(`c2_counterexample`). -/
theorem c2_balance_real (g : ℕ → ℚ) (sqrtQ : ℚ → ℚ) (now : ℤ)
    (df : List DonationRecord) (months_ahead : ℤ)
    (shock_pct boost_pct waste_pct : ℚ) (s0 : RngState) (i : ℕ)
    (h : i < (run_simulation g sqrtQ now df months_ahead shock_pct boost_pct
      waste_pct s0).forecast.length) :
    (run_simulation g sqrtQ now df months_ahead shock_pct boost_pct
        waste_pct s0).forecast.getD i default =
      fpAt g (slopeOf sqrtQ df) (volOf sqrtQ df) shock_pct boost_pct
        waste_pct (lastOf df) (t0Of now df) (i + 1) ∧
    realInvAt g (slopeOf sqrtQ df) (volOf sqrtQ df) (lastOf df) shock_pct
        boost_pct waste_pct (i + 1) =
      realInvAt g (slopeOf sqrtQ df) (volOf sqrtQ df) (lastOf df) shock_pct
        boost_pct waste_pct i +
      (simSupplyAt g (slopeOf sqrtQ df) (volOf sqrtQ df) (lastOf df)
          boost_pct waste_pct (i + 1) -
        simDemandAt g (slopeOf sqrtQ df) (volOf sqrtQ df) (lastOf df)
          shock_pct (i + 1)) ∧
    realInvAt g (slopeOf sqrtQ df) (volOf sqrtQ df) (lastOf df) shock_pct
        boost_pct waste_pct 0 = lastOf df := by
  rw [run_simulation_forecast] at h ⊢
  simp only [List.length_map, List.length_range] at h
  rw [getD_map_range, if_pos h]
  exact ⟨rfl, rfl, rfl⟩

/-- Witness for C2: the amended invariant, instantiated on the concrete
one-record history with the zero noise stream and a one-month horizon. -/
theorem c2_balance_real_witness :
    0 < (run_simulation zeroStream id 0 oneZeroRecord 1 0 0 0
      ⟨zeroStream, 0⟩).forecast.length ∧
    ((run_simulation zeroStream id 0 oneZeroRecord 1 0 0 0
        ⟨zeroStream, 0⟩).forecast.getD 0 default =
      fpAt zeroStream (slopeOf id oneZeroRecord) (volOf id oneZeroRecord) 0 0
        0 (lastOf oneZeroRecord) (t0Of 0 oneZeroRecord) 1 ∧
    realInvAt zeroStream (slopeOf id oneZeroRecord) (volOf id oneZeroRecord)
        (lastOf oneZeroRecord) 0 0 0 1 =
      realInvAt zeroStream (slopeOf id oneZeroRecord) (volOf id oneZeroRecord)
        (lastOf oneZeroRecord) 0 0 0 0 +
      (simSupplyAt zeroStream (slopeOf id oneZeroRecord)
          (volOf id oneZeroRecord) (lastOf oneZeroRecord) 0 0 1 -
        simDemandAt zeroStream (slopeOf id oneZeroRecord)
          (volOf id oneZeroRecord) (lastOf oneZeroRecord) 0 1) ∧
    realInvAt zeroStream (slopeOf id oneZeroRecord) (volOf id oneZeroRecord)
        (lastOf oneZeroRecord) 0 0 0 0 = lastOf oneZeroRecord) := by
  have hlen : 0 < (run_simulation zeroStream id 0 oneZeroRecord 1 0 0 0
      ⟨zeroStream, 0⟩).forecast.length := by
    rw [forecast_oneZero]
    decide
  exact ⟨hlen, c2_balance_real zeroStream id 0 oneZeroRecord 1 0 0 0
    ⟨zeroStream, 0⟩ 0 hlen⟩

/-- Counterexample for C2 as stated: on the one-record history (last
historical total 0) with a first supply draw of 1/3 (so volatility 10 gives
supply noise 1), the single emitted row is
`(date 1, inventory 0, supply 1, demand 0)` — the real values are
inventory 0.05, supply 1, demand 0.95 — and the claimed equation over the
emitted integer-truncated fields reads `0 = 0 + 1 - 0`, which is false. -/
theorem c2_counterexample :
    (run_simulation gThird id 0 oneZeroRecord 1 0 0 0
      ⟨gThird, 0⟩).forecast = [⟨1, 0, 1, 0⟩] ∧
    ¬ ((((run_simulation gThird id 0 oneZeroRecord 1 0 0 0
          ⟨gThird, 0⟩).forecast.getD 0 default).inventory : ℚ) =
        lastOf oneZeroRecord +
        (((run_simulation gThird id 0 oneZeroRecord 1 0 0 0
          ⟨gThird, 0⟩).forecast.getD 0 default).monthlySupply : ℚ) -
        (((run_simulation gThird id 0 oneZeroRecord 1 0 0 0
          ⟨gThird, 0⟩).forecast.getD 0 default).monthlyDemand : ℚ)) := by
  have hfp : fpAt gThird 0 10 0 0 0 0 0 1 = (⟨1, 0, 1, 0⟩ : ForecastPoint) := by
    unfold fpAt
    simp only [ForecastPoint.mk.injEq]
    refine ⟨by norm_num, ?_, ?_, ?_⟩
    · apply pyInt_eval _ 0 <;>
        norm_num [realInvAt_one, simSupplyAt, simDemandAt, baseSupplyAt,
          supplyNoise_one, demandNoise_one, demand_ratio, gThird, max_def]
    · apply pyInt_eval _ 1 <;>
        norm_num [simSupplyAt, baseSupplyAt, supplyNoise_one, gThird, max_def]
    · apply pyInt_eval _ 0 <;>
        norm_num [simDemandAt, baseSupplyAt, supplyNoise_one,
          demandNoise_one, demand_ratio, gThird, max_def]
  have h1 : (run_simulation gThird id 0 oneZeroRecord 1 0 0 0
      ⟨gThird, 0⟩).forecast = [⟨1, 0, 1, 0⟩] := by
    rw [forecast_oneZero, hfp]
  refine ⟨h1, ?_⟩
  rw [h1, lastOf_oneZero]
  norm_num

/-- C3 (amended): conditional monotonic policy response.  With history,
horizon, noise draws and the other parameters fixed, at a step whose
clamped `base_supply` is strictly positive and with `wastagePct < 100`, a
strictly larger `supplyBoostPct` gives a strictly larger `sim_supply`; at a
step whose pre-shock demand `base_demand + noise` is strictly positive, a
strictly larger `demandShockPct` gives a strictly larger `sim_demand`; at a
step with positive `base_supply` and `supplyBoostPct > -100`, a strictly
larger `wastagePct` gives a strictly smaller `sim_supply`.  The emitted
fields of `run_simulation` are exactly the truncations of these per-step
values.  Unconditional strictness, as claimed, fails when the zero clamp
bites (`c3_counterexample`). -/
theorem c3_monotonic_policy :
    (∀ (g : ℕ → ℚ) (slope vol last w b1 b2 : ℚ) (m : ℕ),
      0 < baseSupplyAt g slope vol last m → w < 100 → b1 < b2 →
      simSupplyAt g slope vol last b1 w m <
        simSupplyAt g slope vol last b2 w m) ∧
    (∀ (g : ℕ → ℚ) (slope vol last s1 s2 : ℚ) (m : ℕ),
      0 < baseSupplyAt g slope vol last m * demand_ratio +
        demandNoise g vol m →
      s1 < s2 →
      simDemandAt g slope vol last s1 m <
        simDemandAt g slope vol last s2 m) ∧
    (∀ (g : ℕ → ℚ) (slope vol last b w1 w2 : ℚ) (m : ℕ),
      0 < baseSupplyAt g slope vol last m → -100 < b → w1 < w2 →
      simSupplyAt g slope vol last b w2 m <
        simSupplyAt g slope vol last b w1 m) ∧
    (∀ (g : ℕ → ℚ) (sqrtQ : ℚ → ℚ) (now : ℤ) (df : List DonationRecord)
      (months_ahead : ℤ) (shock_pct boost_pct waste_pct : ℚ)
      (s0 : RngState) (i : ℕ),
      i < months_ahead.toNat →
      ((run_simulation g sqrtQ now df months_ahead shock_pct boost_pct
          waste_pct s0).forecast.getD i default).monthlySupply =
        pyInt (simSupplyAt g (slopeOf sqrtQ df) (volOf sqrtQ df) (lastOf df)
          boost_pct waste_pct (i + 1)) ∧
      ((run_simulation g sqrtQ now df months_ahead shock_pct boost_pct
          waste_pct s0).forecast.getD i default).monthlyDemand =
        pyInt (simDemandAt g (slopeOf sqrtQ df) (volOf sqrtQ df) (lastOf df)
          shock_pct (i + 1))) := by
  refine ⟨?_, ?_, ?_, ?_⟩
  · intro g slope vol last w b1 b2 m hB hw hb
    unfold simSupplyAt
    nlinarith [mul_pos (mul_pos hB (show (0 : ℚ) < 1 - w / 100 by linarith))
      (show (0 : ℚ) < b2 - b1 by linarith)]
  · intro g slope vol last s1 s2 m hD hs
    unfold simDemandAt
    nlinarith [mul_pos hD (show (0 : ℚ) < s2 - s1 by linarith)]
  · intro g slope vol last b w1 w2 m hB hb hw
    unfold simSupplyAt
    nlinarith [mul_pos (mul_pos hB (show (0 : ℚ) < 1 + b / 100 by linarith))
      (show (0 : ℚ) < w2 - w1 by linarith)]
  · intro g sqrtQ now df months_ahead shock_pct boost_pct waste_pct s0 i hi
    rw [run_simulation_forecast, getD_map_range, if_pos hi]
    exact ⟨rfl, rfl⟩

/-- Witness for C3: the conditional monotonicities and the bridge to
`run_simulation`, instantiated at concrete values (base supply 100,
boosts 0 < 10, shocks 0 < 10, wastages 5 < 10). -/
theorem c3_witness :
    (0 : ℚ) < baseSupplyAt zeroStream 0 0 100 1 ∧
    simSupplyAt zeroStream 0 0 100 0 5 1 <
      simSupplyAt zeroStream 0 0 100 10 5 1 ∧
    (0 : ℚ) < baseSupplyAt zeroStream 0 0 100 1 * demand_ratio +
      demandNoise zeroStream 0 1 ∧
    simDemandAt zeroStream 0 0 100 0 1 < simDemandAt zeroStream 0 0 100 10 1 ∧
    simSupplyAt zeroStream 0 0 100 0 10 1 <
      simSupplyAt zeroStream 0 0 100 0 5 1 ∧
    ((run_simulation zeroStream id 0 oneZeroRecord 1 0 0 0
        ⟨zeroStream, 0⟩).forecast.getD 0 default).monthlySupply =
      pyInt (simSupplyAt zeroStream (slopeOf id oneZeroRecord)
        (volOf id oneZeroRecord) (lastOf oneZeroRecord) 0 0 1) := by
  have hB : (0 : ℚ) < baseSupplyAt zeroStream 0 0 100 1 := by
    norm_num [baseSupplyAt, supplyNoise_one, zeroStream, max_def]
  have hD : (0 : ℚ) < baseSupplyAt zeroStream 0 0 100 1 * demand_ratio +
      demandNoise zeroStream 0 1 := by
    norm_num [baseSupplyAt, supplyNoise_one, demandNoise_one, demand_ratio,
      zeroStream, max_def]
  refine ⟨hB, ?_, hD, ?_, ?_, ?_⟩
  · exact c3_monotonic_policy.1 zeroStream 0 0 100 5 0 10 1 hB (by norm_num)
      (by norm_num)
  · exact c3_monotonic_policy.2.1 zeroStream 0 0 100 0 10 1 hD (by norm_num)
  · exact c3_monotonic_policy.2.2.1 zeroStream 0 0 100 0 5 10 1 hB
      (by norm_num) (by norm_num)
  · exact (c3_monotonic_policy.2.2.2 zeroStream id 0 oneZeroRecord 1 0 0 0
      ⟨zeroStream, 0⟩ 0 (by decide)).1

/-- Counterexample for C3 as stated: on the one-record history (last total
0, trend 0) with all noise draws 0, the clamped base supply of step 1 is 0,
so raising the boost from 0 to 10 leaves `sim_supply` at 0, raising the
shock from 0 to 10 leaves `sim_demand` at 0, raising the wastage from 0 to
50 leaves `sim_supply` at 0, and the two full `run_simulation` forecasts
for boosts 0 and 10 coincide — no strict response anywhere. -/
theorem c3_counterexample :
    simSupplyAt zeroStream 0 10 0 0 0 1 = simSupplyAt zeroStream 0 10 0 10 0 1 ∧
    simSupplyAt zeroStream 0 10 0 0 0 1 = 0 ∧
    simDemandAt zeroStream 0 10 0 0 1 = simDemandAt zeroStream 0 10 0 10 1 ∧
    simSupplyAt zeroStream 0 10 0 0 50 1 = simSupplyAt zeroStream 0 10 0 0 0 1 ∧
    (run_simulation zeroStream id 0 oneZeroRecord 1 0 0 0
        ⟨zeroStream, 0⟩).forecast =
      (run_simulation zeroStream id 0 oneZeroRecord 1 0 10 0
        ⟨zeroStream, 0⟩).forecast := by
  have hfp0 : ∀ b : ℚ, fpAt zeroStream 0 10 0 b 0 0 0 1 =
      (⟨1, 0, 0, 0⟩ : ForecastPoint) := by
    intro b
    unfold fpAt
    simp only [ForecastPoint.mk.injEq]
    refine ⟨by norm_num, ?_, ?_, ?_⟩
    · apply pyInt_eval _ 0 <;>
        norm_num [realInvAt_one, simSupplyAt, simDemandAt, baseSupplyAt,
          supplyNoise_one, demandNoise_one, demand_ratio, zeroStream, max_def]
    · apply pyInt_eval _ 0 <;>
        norm_num [simSupplyAt, baseSupplyAt, supplyNoise_one, zeroStream,
          max_def]
    · apply pyInt_eval _ 0 <;>
        norm_num [simDemandAt, baseSupplyAt, supplyNoise_one,
          demandNoise_one, demand_ratio, zeroStream, max_def]
  refine ⟨?_, ?_, ?_, ?_, ?_⟩
  · norm_num [simSupplyAt, baseSupplyAt, supplyNoise_one, zeroStream, max_def]
  · norm_num [simSupplyAt, baseSupplyAt, supplyNoise_one, zeroStream, max_def]
  · norm_num [simDemandAt, baseSupplyAt, supplyNoise_one, demandNoise_one,
      demand_ratio, zeroStream, max_def]
  · norm_num [simSupplyAt, baseSupplyAt, supplyNoise_one, zeroStream, max_def]
  · rw [forecast_oneZero, forecast_oneZero, hfp0, hfp0]

theorem run_simulation_nonpos_horizon (g : ℕ → ℚ) (sqrtQ : ℚ → ℚ) (now : ℤ)
    (df : List DonationRecord) (months_ahead : ℤ)
    (shock_pct boost_pct waste_pct : ℚ) (s0 : RngState)
    (h : months_ahead ≤ 0) :
    run_simulation g sqrtQ now df months_ahead shock_pct boost_pct waste_pct
      s0 = ⟨prepare df, [], 0, 0, ⟨g, 0⟩⟩ := by
  unfold run_simulation
  rw [Int.toNat_of_nonpos h]
  simp [projectLoop, np_random_seed]

/-- C4 (amended): empty-history fallback without an exception.  The code
has no `EmptyHistoryError`: resampling zero records yields an empty
monthly series (`aggregate [] = []`, no failure), and `run_simulation`
handles it inline, substituting the default starting volume 1000 and the
current date `now` as the anchor, so the projection over an empty history
runs with `lastHistoricalTotal = 1000` and `T0 = now`. -/
theorem c4_empty_history (g : ℕ → ℚ) (sqrtQ : ℚ → ℚ) (now : ℤ)
    (months_ahead : ℤ) (shock_pct boost_pct waste_pct : ℚ) (s0 : RngState)
    (i : ℕ) (h : i < months_ahead.toNat) :
    aggregate ([] : List DonationRecord) = [] ∧
    lastOf ([] : List DonationRecord) = 1000 ∧
    t0Of now ([] : List DonationRecord) = now ∧
    (run_simulation g sqrtQ now [] months_ahead shock_pct boost_pct
        waste_pct s0).forecast.getD i default =
      fpAt g 0 10 shock_pct boost_pct waste_pct 1000 now (i + 1) := by
  refine ⟨rfl, rfl, rfl, ?_⟩
  rw [run_simulation_forecast, getD_map_range, if_pos h]
  rfl

/-- Witness for C4: the empty-history fallback at horizon 1, index 0,
current date 7. -/
theorem c4_witness :
    0 < (1 : ℤ).toNat ∧
    (aggregate ([] : List DonationRecord) = [] ∧
      lastOf ([] : List DonationRecord) = 1000 ∧
      t0Of 7 ([] : List DonationRecord) = 7 ∧
      (run_simulation zeroStream id 7 [] 1 0 0 0
          ⟨zeroStream, 0⟩).forecast.getD 0 default =
        fpAt zeroStream 0 10 0 0 0 1000 7 1) :=
  ⟨by decide,
    c4_empty_history zeroStream id 7 1 0 0 0 ⟨zeroStream, 0⟩ 0 (by decide)⟩

/-- Counterexample for C4 as stated: aggregating zero records does not
fail with an `EmptyHistoryError` — it returns the empty series — and
`run_simulation` on the empty collection still returns a one-row forecast
instead of an aborted aggregation being recovered from. -/
theorem c4_counterexample :
    aggregate ([] : List DonationRecord) = [] ∧
    (run_simulation zeroStream id 7 [] 1 0 0 0
      ⟨zeroStream, 0⟩).forecast.length = 1 := by
  refine ⟨rfl, ?_⟩
  rw [run_simulation_forecast]
  simp

/-- C5 (amended): `run_simulation` performs no parameter validation and
never raises.  There is no `InvalidParameterError` in the code: a negative
`horizonMonths` simply makes `range(1, months_ahead + 1)` empty, so the
call returns an empty forecast with mean supply and mean demand 0, and
out-of-range shock/boost/wastage values are accepted and used in the
arithmetic as-is rather than being rejected before projection. -/
theorem c5_no_validation (g : ℕ → ℚ) (sqrtQ : ℚ → ℚ) (now : ℤ)
    (df : List DonationRecord) (months_ahead : ℤ)
    (shock_pct boost_pct waste_pct : ℚ) (s0 : RngState)
    (h : months_ahead < 0) :
    (run_simulation g sqrtQ now df months_ahead shock_pct boost_pct
      waste_pct s0).forecast = [] ∧
    (run_simulation g sqrtQ now df months_ahead shock_pct boost_pct
      waste_pct s0).avg_sup = 0 ∧
    (run_simulation g sqrtQ now df months_ahead shock_pct boost_pct
      waste_pct s0).avg_dem = 0 := by
  rw [run_simulation_nonpos_horizon g sqrtQ now df months_ahead shock_pct
    boost_pct waste_pct s0 h.le]
  exact ⟨rfl, rfl, rfl⟩

/-- Witness for C5: horizon -1 returns the empty forecast and zero means. -/
theorem c5_witness :
    (-1 : ℤ) < 0 ∧
    ((run_simulation zeroStream id 0 oneZeroRecord (-1) 0 0 0
        ⟨zeroStream, 0⟩).forecast = [] ∧
      (run_simulation zeroStream id 0 oneZeroRecord (-1) 0 0 0
        ⟨zeroStream, 0⟩).avg_sup = 0 ∧
      (run_simulation zeroStream id 0 oneZeroRecord (-1) 0 0 0
        ⟨zeroStream, 0⟩).avg_dem = 0) :=
  ⟨by decide, c5_no_validation zeroStream id 0 oneZeroRecord (-1) 0 0 0
    ⟨zeroStream, 0⟩ (by decide)⟩

/-- Counterexample for C5 as stated: a call with negative horizon -1 and
wildly out-of-range shock 999, boost -200 and wastage 150 does not raise
any `InvalidParameterError` — it returns a result (the empty forecast with
zero means). -/
theorem c5_counterexample :
    (run_simulation zeroStream id 0 oneZeroRecord (-1) 999 (-200) 150
      ⟨zeroStream, 0⟩).forecast = [] ∧
    (run_simulation zeroStream id 0 oneZeroRecord (-1) 999 (-200) 150
      ⟨zeroStream, 0⟩).avg_sup = 0 ∧
    (run_simulation zeroStream id 0 oneZeroRecord (-1) 999 (-200) 150
      ⟨zeroStream, 0⟩).avg_dem = 0 := by
  rw [run_simulation_nonpos_horizon zeroStream id 0 oneZeroRecord (-1) 999
    (-200) 150 ⟨zeroStream, 0⟩ (by decide)]
  exact ⟨rfl, rfl, rfl⟩

/-- C6: zero-demand division guards never raise.  When the mean demand is
positive, `days_of_supply` is `finalInventory / (meanDemand / 30)` and
`coverage_ratio` is `meanSupply / meanDemand * 100`; when the mean demand
is zero, `days_of_supply` is `float('inf')` and `coverage_ratio` is 0; a
blood-type category whose allocated demand truncates to 0 gets coverage
1.0.  All three functions are total — no division error exists. -/
theorem c6_division_guards (final_inventory monthly_sup monthly_dem
    ratio : ℚ) :
    (monthly_dem > 0 →
      days_of_supply final_inventory monthly_dem =
        .fin (final_inventory / (monthly_dem / 30)) ∧
      coverage_ratio monthly_sup monthly_dem =
        monthly_sup / monthly_dem * 100) ∧
    (monthly_dem = 0 →
      days_of_supply final_inventory monthly_dem = .inf ∧
      coverage_ratio monthly_sup monthly_dem = 0) ∧
    (pyInt (monthly_dem * ratio) = 0 →
      coverage monthly_sup monthly_dem ratio = 1) := by
  refine ⟨?_, ?_, ?_⟩
  · intro h
    exact ⟨by simp [days_of_supply, h], by simp [coverage_ratio, h]⟩
  · intro h
    subst h
    exact ⟨by simp [days_of_supply], by simp [coverage_ratio]⟩
  · intro h
    simp [coverage, h]

/-- Witness for C6: the three guards at demand 2 (positive), demand 0, and
a category whose allocated demand truncates to 0. -/
theorem c6_witness :
    days_of_supply 30 2 = .fin 450 ∧
    coverage_ratio 3 2 = 150 ∧
    days_of_supply 30 0 = .inf ∧
    coverage_ratio 3 0 = 0 ∧
    coverage 3 0 1 = 1 := by
  have h1 := (c6_division_guards 30 3 2 1).1 (by norm_num)
  have h2 := (c6_division_guards 30 3 0 1).2.1 rfl
  have h3 := (c6_division_guards 30 3 0 1).2.2
    (by apply pyInt_eval <;> norm_num)
  exact ⟨h1.1.trans (by rw [show (30 : ℚ) / (2 / 30) = 450 by norm_num]),
    h1.2.trans (by norm_num), h2.1, h2.2, h3⟩

theorem foldl_min_mem (ms : List ℤ) (m : ℤ) :
    ms.foldl min m = m ∨ ms.foldl min m ∈ ms := by
  induction ms generalizing m with
  | nil => exact Or.inl rfl
  | cons a l ih =>
    rw [List.foldl_cons]
    rcases ih (min m a) with h | h
    · rcases min_choice m a with h2 | h2
      · exact Or.inl (by rw [h, h2])
      · exact Or.inr (by rw [h, h2]; exact List.mem_cons_self a l)
    · exact Or.inr (List.mem_cons_of_mem a h)

theorem foldl_max_mem (ms : List ℤ) (m : ℤ) :
    ms.foldl max m = m ∨ ms.foldl max m ∈ ms := by
  induction ms generalizing m with
  | nil => exact Or.inl rfl
  | cons a l ih =>
    rw [List.foldl_cons]
    rcases ih (max m a) with h | h
    · rcases max_choice m a with h2 | h2
      · exact Or.inl (by rw [h, h2])
      · exact Or.inr (by rw [h, h2]; exact List.mem_cons_self a l)
    · exact Or.inr (List.mem_cons_of_mem a h)

theorem exists_month_aggLo (r : DonationRecord) (rs : List DonationRecord) :
    ∃ s ∈ r :: rs, s.created_at.month = aggLo (r :: rs) := by
  have hagg : aggLo (r :: rs) =
      (rs.map fun x => x.created_at.month).foldl min r.created_at.month := rfl
  rcases foldl_min_mem (rs.map fun x => x.created_at.month)
      r.created_at.month with h | h
  · exact ⟨r, List.mem_cons_self r rs, by rw [hagg, h]⟩
  · rcases List.mem_map.mp h with ⟨s, hs, hval⟩
    exact ⟨s, List.mem_cons_of_mem r hs, by rw [hagg]; exact hval⟩

theorem exists_month_aggHi (r : DonationRecord) (rs : List DonationRecord) :
    ∃ s ∈ r :: rs, s.created_at.month = aggHi (r :: rs) := by
  have hagg : aggHi (r :: rs) =
      (rs.map fun x => x.created_at.month).foldl max r.created_at.month := rfl
  rcases foldl_max_mem (rs.map fun x => x.created_at.month)
      r.created_at.month with h | h
  · exact ⟨r, List.mem_cons_self r rs, by rw [hagg, h]⟩
  · rcases List.mem_map.mp h with ⟨s, hs, hval⟩
    exact ⟨s, List.mem_cons_of_mem r hs, by rw [hagg]; exact hval⟩

/-- C7: aggregation correctness with gap filling.  For every non-empty
record collection, the monthly series `aggregate df` lists exactly the
consecutive months from the earliest to the latest record (so it is
strictly chronologically ordered and has no missing month), every record
falls inside that span whose two ends are attained, every listed point
carries the sum of the volumes donated in its month, a month with no
records sums to 0, and in particular the records
{(Jan, 10), (Jan, 5), (Mar, 7)} with February absent aggregate to
[(Jan, 15), (Feb, 0), (Mar, 7)]. -/
theorem c7_aggregation (df : List DonationRecord) (h : df ≠ []) :
    (aggregate df).map Prod.fst = monthRange (aggLo df) (aggHi df) ∧
    ((aggregate df).map Prod.fst).Pairwise (· < ·) ∧
    (∀ r ∈ df, aggLo df ≤ r.created_at.month ∧
      r.created_at.month ≤ aggHi df) ∧
    (∃ r ∈ df, r.created_at.month = aggLo df) ∧
    (∃ r ∈ df, r.created_at.month = aggHi df) ∧
    (∀ mo : ℤ, aggLo df ≤ mo → mo ≤ aggHi df →
      (mo, monthSum df mo) ∈ aggregate df) ∧
    (∀ p ∈ aggregate df, p.2 = monthSum df p.1) ∧
    (∀ mo : ℤ, (∀ r ∈ df, r.created_at.month ≠ mo) → monthSum df mo = 0) ∧
    aggregate exJanMar = [(0, 15), (1, 0), (2, 7)] := by
  obtain ⟨r, rs, rfl⟩ : ∃ r rs, df = r :: rs := by
    cases df with
    | nil => exact absurd rfl h
    | cons a l => exact ⟨a, l, rfl⟩
  have hAgg : aggregate (r :: rs) =
      (monthRange (aggLo (r :: rs)) (aggHi (r :: rs))).map
        fun mo => (mo, monthSum (r :: rs) mo) := by
    unfold aggregate
    rw [if_neg (by simp : ¬((r :: rs).isEmpty = true))]
  have hfst : (aggregate (r :: rs)).map Prod.fst =
      monthRange (aggLo (r :: rs)) (aggHi (r :: rs)) := by
    rw [hAgg, List.map_map]
    have hcomp : Prod.fst ∘ (fun mo : ℤ => (mo, monthSum (r :: rs) mo)) =
        id := rfl
    rw [hcomp, List.map_id]
  refine ⟨hfst, ?_, ?_, exists_month_aggLo r rs, exists_month_aggHi r rs,
    ?_, ?_, ?_, ?_⟩
  · rw [hfst]
    unfold monthRange
    rw [List.pairwise_map]
    exact (List.pairwise_lt_range _).imp (by intro a b hab; omega)
  · intro s hs
    exact ⟨aggLo_le_month r rs s hs, month_le_aggHi r rs s hs⟩
  · intro mo h1 h2
    rw [hAgg]
    exact List.mem_map_of_mem _
      ((mem_monthRange _ _ mo (aggLo_le_aggHi r rs)).mpr ⟨h1, h2⟩)
  · intro p hp
    rw [hAgg] at hp
    rcases List.mem_map.mp hp with ⟨mo, _, rfl⟩
    rfl
  · intro mo hmo
    unfold monthSum
    have hf : ((r :: rs).filter fun x => x.created_at.month = mo) = [] := by
      rw [List.filter_eq_nil_iff]
      intro a ha
      simp [hmo a ha]
    rw [hf]
    rfl
  · simp [exJanMar, aggregate, aggLo, aggHi, monthRange, monthSum, Ts.month,
      List.filter, List.range_succ, List.range_zero]
    norm_num

/-- Witness for C7: the aggregation properties on the concrete
January/March example. -/
theorem c7_witness :
    exJanMar ≠ [] ∧ aggregate exJanMar = [(0, 15), (1, 0), (2, 7)] :=
  ⟨by simp [exJanMar],
    (c7_aggregation exJanMar (by simp [exJanMar])).2.2.2.2.2.2.2.2⟩

/-- C8: degenerate trend fallback.  Whenever the lookback window holds at
most one monthly point, the estimator returns `slope = 0` and
`volatility = 10` (the fixed fallback constant) with no division or fit
performed; a history aggregating to at most one month takes this branch
(the window then is the whole series), and the projection of
`run_simulation` proceeds normally with slope 0 and volatility 10 — the
unused intercept causes no failure. -/
theorem c8_degenerate_trend :
    (∀ (sqrtQ : ℚ → ℚ) (ys : List ℚ), ys.length ≤ 1 →
      estimator sqrtQ ys = (0, 10)) ∧
    (∀ l : List ℚ, l.length ≤ 1 → recentOf l = l) ∧
    (∀ (sqrtQ : ℚ → ℚ) (df : List DonationRecord),
      (histOf df).length ≤ 1 →
      slopeOf sqrtQ df = 0 ∧ volOf sqrtQ df = 10) ∧
    (∀ (g : ℕ → ℚ) (sqrtQ : ℚ → ℚ) (now : ℤ) (df : List DonationRecord)
      (months_ahead : ℤ) (shock_pct boost_pct waste_pct : ℚ)
      (s0 : RngState), (histOf df).length ≤ 1 →
      (run_simulation g sqrtQ now df months_ahead shock_pct boost_pct
        waste_pct s0).forecast =
      (List.range months_ahead.toNat).map fun i =>
        fpAt g 0 10 shock_pct boost_pct waste_pct (lastOf df) (t0Of now df)
          (i + 1)) := by
  have h1 : ∀ (sqrtQ : ℚ → ℚ) (ys : List ℚ), ys.length ≤ 1 →
      estimator sqrtQ ys = (0, 10) := by
    intro sq ys hy
    unfold estimator
    rw [if_neg (by omega)]
  have h2 : ∀ l : List ℚ, l.length ≤ 1 → recentOf l = l := by
    intro l hl
    unfold recentOf
    rw [if_neg (by simp only [lookback]; omega)]
  have h3 : ∀ (sqrtQ : ℚ → ℚ) (df : List DonationRecord),
      (histOf df).length ≤ 1 →
      slopeOf sqrtQ df = 0 ∧ volOf sqrtQ df = 10 := by
    intro sq df hd
    have hlen : ((histOf df).map Prod.snd).length ≤ 1 := by
      simpa using hd
    have hr : recentOf ((histOf df).map Prod.snd) =
        (histOf df).map Prod.snd := h2 _ hlen
    constructor
    · unfold slopeOf
      rw [hr, h1 _ _ hlen]
    · unfold volOf
      rw [hr, h1 _ _ hlen]
  refine ⟨h1, h2, h3, ?_⟩
  intro g sq now df months_ahead shock_pct boost_pct waste_pct s0 hd
  rw [run_simulation_forecast, (h3 sq df hd).1, (h3 sq df hd).2]

/-- Witness for C8: the fallback on the one-value series [5] and on the
one-month history. -/
theorem c8_witness :
    ([(5 : ℚ)].length ≤ 1) ∧ estimator id [(5 : ℚ)] = (0, 10) ∧
    (histOf oneZeroRecord).length ≤ 1 ∧
    slopeOf id oneZeroRecord = 0 ∧ volOf id oneZeroRecord = 10 := by
  have hh : (histOf oneZeroRecord).length ≤ 1 := by
    rw [histOf_oneZero]
    decide
  exact ⟨by decide, c8_degenerate_trend.1 id [(5 : ℚ)] (by decide), hh,
    (c8_degenerate_trend.2.2.1 id oneZeroRecord hh).1,
    (c8_degenerate_trend.2.2.1 id oneZeroRecord hh).2⟩

theorem prepare_eq_self (df : List DonationRecord)
    (h : ∀ r ∈ df, ∃ mo : ℤ, r.created_at = Ts.dt mo) : prepare df = df := by
  induction df with
  | nil => rfl
  | cons a l ih =>
    obtain ⟨mo, hmo⟩ := h a (List.mem_cons_self a l)
    have h1 : to_datetime a.created_at = a.created_at := by
      rw [hmo]
      rfl
    have h2 : prepare l = l := ih fun r hr => h r (List.mem_cons_of_mem a hr)
    show ({ a with created_at := to_datetime a.created_at }) :: prepare l =
      a :: l
    rw [h1, h2]

/-- C9 (amended): `run_simulation` writes the parsed `created_at` column
back onto its input collection in place (line 161), so the input after the
call is `prepare df`; whenever every timestamp of the input is already a
parsed `Timestamp` — which the repository's loader guarantees via
`pd.to_datetime(..., errors='coerce')` — this write is value-preserving
and the input collection is unchanged.  Beyond this write and the reseeded
global noise stream, the call touches no other state (everything else in
the model is a pure function of the arguments).  For an input with raw
text timestamps the collection does change (`c9_counterexample`). -/
theorem c9_frame_condition (g : ℕ → ℚ) (sqrtQ : ℚ → ℚ) (now : ℤ)
    (df : List DonationRecord) (months_ahead : ℤ)
    (shock_pct boost_pct waste_pct : ℚ) (s0 : RngState)
    (h : ∀ r ∈ df, ∃ mo : ℤ, r.created_at = Ts.dt mo) :
    (run_simulation g sqrtQ now df months_ahead shock_pct boost_pct
      waste_pct s0).df_out = prepare df ∧
    (run_simulation g sqrtQ now df months_ahead shock_pct boost_pct
      waste_pct s0).df_out = df := by
  refine ⟨rfl, ?_⟩
  rw [run_simulation_df_out, prepare_eq_self df h]

/-- Witness for C9: an already-parsed input collection is returned
unchanged. -/
theorem c9_witness :
    (∀ r ∈ oneZeroRecord, ∃ mo : ℤ, r.created_at = Ts.dt mo) ∧
    (run_simulation zeroStream id 0 oneZeroRecord 1 0 0 0
      ⟨zeroStream, 0⟩).df_out = oneZeroRecord := by
  have h : ∀ r ∈ oneZeroRecord, ∃ mo : ℤ, r.created_at = Ts.dt mo := by
    intro r hr
    simp only [oneZeroRecord, List.mem_singleton] at hr
    subst hr
    exact ⟨0, rfl⟩
  exact ⟨h, (c9_frame_condition zeroStream id 0 oneZeroRecord 1 0 0 0
    ⟨zeroStream, 0⟩ h).2⟩

/-- Counterexample for C9 as stated: on an input whose timestamp cell is
still raw text, the call leaves the collection changed — the cell now
holds the parsed timestamp, a different value — so `run_simulation` is not
free of side effects on its input for every input collection. -/
theorem c9_counterexample :
    (run_simulation zeroStream id 0 rawRecord 1 0 0 0
      ⟨zeroStream, 0⟩).df_out = [⟨Ts.dt 5, 3⟩] ∧
    (run_simulation zeroStream id 0 rawRecord 1 0 0 0
      ⟨zeroStream, 0⟩).df_out ≠ rawRecord := by
  have h1 : (run_simulation zeroStream id 0 rawRecord 1 0 0 0
      ⟨zeroStream, 0⟩).df_out = [⟨Ts.dt 5, 3⟩] := by
    rw [run_simulation_df_out]
    rfl
  refine ⟨h1, ?_⟩
  rw [h1]
  simp [rawRecord]

/-- C10: asymmetric clamping of the emitted series.  For every history,
noise stream and generator state, with `wastagePct` in [0, 100] and
`supplyBoostPct ≥ -100`, every emitted `MonthlySupply` is non-negative —
`base_supply` is clamped at zero before the two multipliers are applied.
`MonthlyDemand` has no such floor: with all three policy parameters at 0,
a sufficiently negative demand draw on a step with zero base supply makes
the emitted `MonthlyDemand` the negative integer -6. -/
theorem c10_supply_floor_demand_unbounded :
    (∀ (g : ℕ → ℚ) (sqrtQ : ℚ → ℚ) (now : ℤ) (df : List DonationRecord)
      (months_ahead : ℤ) (shock_pct boost_pct waste_pct : ℚ)
      (s0 : RngState) (i : ℕ),
      0 ≤ waste_pct → waste_pct ≤ 100 → -100 ≤ boost_pct →
      0 ≤ ((run_simulation g sqrtQ now df months_ahead shock_pct boost_pct
        waste_pct s0).forecast.getD i default).monthlySupply) ∧
    (run_simulation negStream id 0 oneZeroRecord 1 0 0 0
      ⟨negStream, 0⟩).forecast = [⟨1, 6, 0, -6⟩] ∧
    ((run_simulation negStream id 0 oneZeroRecord 1 0 0 0
      ⟨negStream, 0⟩).forecast.getD 0 default).monthlyDemand < 0 := by
  have hfc : (run_simulation negStream id 0 oneZeroRecord 1 0 0 0
      ⟨negStream, 0⟩).forecast = [⟨1, 6, 0, -6⟩] := by
    rw [forecast_oneZero]
    have hfp : fpAt negStream 0 10 0 0 0 0 0 1 =
        (⟨1, 6, 0, -6⟩ : ForecastPoint) := by
      unfold fpAt
      simp only [ForecastPoint.mk.injEq]
      refine ⟨by norm_num, ?_, ?_, ?_⟩
      · apply pyInt_eval _ 6 <;>
          norm_num [realInvAt_one, simSupplyAt, simDemandAt, baseSupplyAt,
            supplyNoise_one, demandNoise_one, demand_ratio, negStream,
            max_def]
      · apply pyInt_eval _ 0 <;>
          norm_num [simSupplyAt, baseSupplyAt, supplyNoise_one, negStream,
            max_def]
      · apply pyInt_eval_neg _ (-6) <;>
          norm_num [simDemandAt, baseSupplyAt, supplyNoise_one,
            demandNoise_one, demand_ratio, negStream, max_def]
    rw [hfp]
  refine ⟨?_, hfc, ?_⟩
  · intro g sq now df months_ahead shock_pct boost_pct waste_pct s0 i h0
      h100 hb
    rw [run_simulation_forecast, getD_map_range]
    by_cases h : i < months_ahead.toNat
    · rw [if_pos h]
      show (0 : ℤ) ≤ pyInt (simSupplyAt g (slopeOf sq df) (volOf sq df)
        (lastOf df) boost_pct waste_pct (i + 1))
      apply pyInt_nonneg
      unfold simSupplyAt
      have hbase : (0 : ℚ) ≤ baseSupplyAt g (slopeOf sq df) (volOf sq df)
          (lastOf df) (i + 1) := le_max_right _ _
      exact mul_nonneg (mul_nonneg hbase (by linarith)) (by linarith)
    · rw [if_neg h]
      exact le_refl 0
  · rw [hfc]
    decide

/-- Witness for C10: the supply floor at concrete in-range parameters
(wastage 5, boost 10). -/
theorem c10_witness :
    (0 : ℚ) ≤ 5 ∧ (5 : ℚ) ≤ 100 ∧ (-100 : ℚ) ≤ 10 ∧
    0 ≤ ((run_simulation zeroStream id 0 oneZeroRecord 1 0 10 5
      ⟨zeroStream, 0⟩).forecast.getD 0 default).monthlySupply :=
  ⟨by norm_num, by norm_num, by norm_num,
    c10_supply_floor_demand_unbounded.1 zeroStream id 0 oneZeroRecord 1 0 10
      5 ⟨zeroStream, 0⟩ 0 (by norm_num) (by norm_num) (by norm_num)⟩
